import Mathlib

/-!
Shallow embedding of the request-construction / SAS core of the
`azure-sdk-for-rust` storage crates (`sdk/storage/src/core/clients/mod.rs`,
`sdk/storage_blobs/src/clients/container_client.rs`,
`sdk/storage_blobs/src/clients/blob_service_client.rs`), together with
theorems checking the natural-language specification against it.

Rust `Result` becomes `Except Error`, panics (`unwrap`, `todo!`) become
`Option` with `none` for the panic, and the external `url` crate is modelled
by a small executable parser capturing the behaviours the code relies on
(validity of composed host strings, non-hierarchical "cannot be a base"
URLs, path-segment appending).
-/

/-- The error kinds of `azure_core::error::ErrorKind` that the source
references (`Credential`, `DataConversion`, `Other`), plus the remaining
kinds enumerated by the spec's error-handling section (HTTP response and
I/O transmission errors). Modelled from the spec: the `ErrorKind` enum
itself lives in `azure_core`, outside the excerpt. -/
inductive ErrorKind where
  | httpResponse
  | io
  | dataConversion
  | credential
  | other
deriving DecidableEq, Repr

/-- Rust `azure_core::error::Error` as the source observes it: a kind plus a
message. Modelled from the spec: typed, inspectable failures carrying an
error kind. -/
structure Error where
  kind : ErrorKind
  msg : String
deriving DecidableEq, Repr

/-- Rust `Error::message(kind, msg)`. -/
def Error.message (kind : ErrorKind) (msg : String) : Error :=
  { kind := kind, msg := msg }

/-- The kind of the error of a failed computation, `none` on success. -/
def Except.errorKind {α : Type} : Except Error α → Option ErrorKind
  | .error e => some e.kind
  | .ok _ => none

/-- A UTC timestamp, modelling `time::OffsetDateTime` restricted to UTC as
the source uses it (the source only ever takes `now_utc()` and formats or
stores timestamps). -/
structure DateTime where
  year : Nat
  month : Nat
  day : Nat
  hour : Nat
  minute : Nat
  second : Nat
deriving DecidableEq, Repr

/-- Zero-padded two-digit rendering of a numeric field. -/
def pad2 (n : Nat) : String :=
  if n < 10 then "0" ++ toString n else toString n

/-- Day-of-week index for a calendar date (0 = Saturday), by Zeller's
congruence; used for the weekday name of the RFC-1123 date format. -/
def zellerWeekday (year month day : Nat) : Nat :=
  let m := if month ≤ 2 then month + 12 else month
  let y := if month ≤ 2 then year - 1 else year
  let K := y % 100
  let J := y / 100
  (day + (13 * (m + 1)) / 5 + K + K / 4 + J / 4 + 5 * J) % 7

/-- RFC-1123 weekday names indexed by Zeller's value (0 = Saturday). -/
def weekdayName (w : Nat) : String :=
  match w with
  | 0 => "Sat"
  | 1 => "Sun"
  | 2 => "Mon"
  | 3 => "Tue"
  | 4 => "Wed"
  | 5 => "Thu"
  | _ => "Fri"

/-- RFC-1123 month names (1-based). -/
def monthName (m : Nat) : String :=
  match m with
  | 1 => "Jan"
  | 2 => "Feb"
  | 3 => "Mar"
  | 4 => "Apr"
  | 5 => "May"
  | 6 => "Jun"
  | 7 => "Jul"
  | 8 => "Aug"
  | 9 => "Sep"
  | 10 => "Oct"
  | 11 => "Nov"
  | _ => "Dec"

/-- Modelled from the spec: `azure_core::date::to_rfc1123` (outside the
excerpt) renders a UTC timestamp in the legacy RFC-1123 HTTP date format,
`Sun, 06 Nov 1994 08:49:37 GMT` — not ISO-8601. -/
def toRfc1123 (dt : DateTime) : String :=
  weekdayName (zellerWeekday dt.year dt.month dt.day) ++ ", " ++
    pad2 dt.day ++ " " ++ monthName dt.month ++ " " ++ toString dt.year ++ " " ++
    pad2 dt.hour ++ ":" ++ pad2 dt.minute ++ ":" ++ pad2 dt.second ++ " GMT"

/-- A parsed URL, modelling `url::Url` (external crate) with the structure
the source relies on: scheme, host, optional port, path segments, optional
query, and the WHATWG "cannot be a base" flag that makes
`path_segments_mut` fail for non-hierarchical schemes such as `mailto:`. -/
structure Url where
  scheme : String
  host : String
  port : Option Nat
  path : List String
  query : Option String
  cannotBeABase : Bool
deriving DecidableEq, Repr

/-- Characters the model accepts in a registered host name. -/
def isHostChar (c : Char) : Bool :=
  c.isAlphanum || c = '.' || c = '-' || c = '_'

/-- Characters the model accepts in a URL scheme. -/
def isSchemeChar (c : Char) : Bool :=
  c.isAlpha || c.isDigit || c = '+' || c = '-' || c = '.'

/-- First-occurrence split of a character list at a separator sequence:
`some (before, after)` when the separator occurs, `none` otherwise.
Structural recursion so concrete URLs evaluate inside proofs. -/
def breakOnSeq (sep : List Char) : List Char → Option (List Char × List Char)
  | [] => none
  | c :: rest =>
    if sep.isPrefixOf (c :: rest) then some ([], (c :: rest).drop sep.length)
    else
      match breakOnSeq sep rest with
      | some (a, b) => some (c :: a, b)
      | none => none

/-- Split a character list at every occurrence of a separator character
(the single-character case of `str::split`). -/
def splitOnChar (sep : Char) : List Char → List (List Char)
  | [] => [[]]
  | c :: rest =>
    let r := splitOnChar sep rest
    if c = sep then [] :: r
    else
      match r with
      | [] => [[c]]
      | a :: as => (c :: a) :: as

/-- Parse a decimal numeral; `none` when empty or not all digits. -/
def digitsToNat (l : List Char) : Option Nat :=
  if l.isEmpty || !(l.all Char.isDigit) then none
  else some (l.foldl (fun n c => 10 * n + (c.toNat - 48)) 0)

/-- Parse the authority component `host[:port]`; `none` when the host is
empty, holds a character illegal in a host, or the port is not numeric. -/
def parseAuthority (authority : List Char) : Option (String × Option Nat) :=
  match splitOnChar ':' authority with
  | [h] =>
    if h.isEmpty || !(h.all isHostChar) then none
    else some (String.mk h, none)
  | [h, p] =>
    if h.isEmpty || !(h.all isHostChar) then none
    else
      match digitsToNat p with
      | some n => some (String.mk h, some n)
      | none => none
  | _ => none

/-- Modelled behaviour of `url::Url::parse` (external crate), covering what
the source depends on: a hierarchical `scheme://host[:port][/path][?query]`
parses into a base-capable URL when the host is well formed and fails
otherwise (for example a space inside the host, as produced by an account
name with illegal characters); a non-hierarchical `scheme:opaque` string
parses into a URL with `cannotBeABase` set. -/
def Url.parse (s : String) : Option Url :=
  let cs := s.toList
  match breakOnSeq "://".toList cs with
  | none =>
    match splitOnChar ':' cs with
    | [sch, opaquePart] =>
      if sch.isEmpty || !(sch.all isSchemeChar) then none
      else some { scheme := String.mk sch, host := "", port := none,
                  path := [String.mk opaquePart], query := none,
                  cannotBeABase := true }
    | _ => none
  | some (sch, rest) =>
    if sch.isEmpty || !(sch.all isSchemeChar) then none
    else
      let (beforeQuery, query) :=
        match breakOnSeq ['?'] rest with
        | some (a, q) => (a, some (String.mk q))
        | none => (rest, (none : Option String))
      match splitOnChar '/' beforeQuery with
      | [] => none
      | authority :: segments =>
        match parseAuthority authority with
        | none => none
        | some (h, p) =>
          some { scheme := String.mk sch, host := h, port := p,
                 path := segments.map String.mk, query := query,
                 cannotBeABase := false }

/-- Serialize a `Url` back to a string (the `Display` impl of `url::Url`
as the source's error messages use it). -/
def Url.toDisplayString (u : Url) : String :=
  if u.cannotBeABase then
    u.scheme ++ ":" ++ String.intercalate "/" u.path
  else
    u.scheme ++ "://" ++ u.host ++
      (match u.port with
       | some p => ":" ++ toString p
       | none => "") ++
      (if u.path.isEmpty then "" else "/" ++ String.intercalate "/" u.path) ++
      (match u.query with
       | some q => "?" ++ q
       | none => "")

/-- Modelled behaviour of `url::Url::join` (external crate) for the plain
relative single-segment inputs the builders pass (a container name):
resolving a relative reference against a base replaces everything after the
last `/` of the base path; fails (`none`) when the base cannot be a base.
The builders only `unwrap` the result, so only success-vs-panic matters to
the theorems below. -/
def Url.join (u : Url) (input : String) : Option Url :=
  if u.cannotBeABase then none
  else some { u with path := u.path.dropLast ++ [input] }

/-- The well-known account used by Azurite and the legacy Azure Storage
Emulator (`EMULATOR_ACCOUNT` in the source). -/
def EMULATOR_ACCOUNT : String := "devstoreaccount1"

/-- The well-known account key used by Azurite and the legacy Azure Storage
Emulator (`EMULATOR_ACCOUNT_KEY` in the source). -/
def EMULATOR_ACCOUNT_KEY : String :=
  "Eby8vdM02xNOcqFlqUwJPLlmEtlCDXJ1OUzFT50uSRZ6IFsuFq2UVErCz4I6tq/K1SZFPTOtr/KBHBeksoGMGw=="

/-- Rust `AZURE_VERSION`: the fixed API-version header value. -/
def AZURE_VERSION : String := "2019-12-12"

/-- Rust `StorageCredentials`: shared key (account, key), SAS token query pairs,
bearer token, or a refreshable token-credential capability. The
`Arc<dyn TokenCredential>` capability is abstracted as an identifier, since
no code in the excerpt inspects it. -/
inductive StorageCredentials where
  | Key (account : String) (key : String)
  | SASToken (pairs : List (String × String))
  | BearerToken (token : String)
  | TokenCredential (capId : Nat)
deriving DecidableEq, Repr

/-- The `Debug` impl for `StorageCredentials`: prints only the variant name
via `debug_struct("StorageCredentials").field("credential", &"...")`, never
the payload. -/
def StorageCredentials.debugFmt : StorageCredentials → String
  | .Key _ _ => "StorageCredentials \x7b credential: \"Key\" \x7d"
  | .SASToken _ => "StorageCredentials \x7b credential: \"SASToken\" \x7d"
  | .BearerToken _ => "StorageCredentials \x7b credential: \"BearerToken\" \x7d"
  | .TokenCredential _ => "StorageCredentials \x7b credential: \"TokenCredential\" \x7d"

/-- Rust `AccountSasResource` (blob/queue/table/file). Modelled from the spec:
declared in the SAS module outside the excerpt; the excerpt passes it
through opaquely. -/
inductive AccountSasResource where
  | blob | queue | table | file
deriving DecidableEq, Repr

/-- Rust `AccountSasResourceType` (service/container/object). Modelled from the
spec: declared outside the excerpt and passed through opaquely. -/
inductive AccountSasResourceType where
  | service | container | object
deriving DecidableEq, Repr

/-- Rust `AccountSasPermissions`: the bitwise-composable account-scope permission
flags the spec enumerates (read/write/delete/list/add/create/update/process).
Modelled from the spec: declared outside the excerpt, passed through
opaquely here. -/
structure AccountSasPermissions where
  read : Bool := false
  write : Bool := false
  delete : Bool := false
  list : Bool := false
  add : Bool := false
  create : Bool := false
  update : Bool := false
  process : Bool := false
deriving DecidableEq, Repr

/-- Rust `AccountSharedAccessSignature`. Modelled from the spec: the SAS Signer
produces an immutable token value holding the signing inputs (account, key,
resource, resource class, optional start, expiry, permissions); its `new`
constructor stores exactly the given inputs with the optional fields unset. -/
structure AccountSharedAccessSignature where
  account : String
  key : String
  resource : AccountSasResource
  resourceType : AccountSasResourceType
  signedStart : Option DateTime := none
  expiry : DateTime
  permissions : AccountSasPermissions
deriving DecidableEq, Repr

/-- Rust `AccountSharedAccessSignature::new(account, key, resource,
resource_type, expiry, permissions)`. Modelled from the spec (constructor
outside the excerpt): stores its inputs, optional fields unset. -/
def AccountSharedAccessSignature.new (account key : String)
    (resource : AccountSasResource) (resourceType : AccountSasResourceType)
    (expiry : DateTime) (permissions : AccountSasPermissions) :
    AccountSharedAccessSignature :=
  { account := account, key := key, resource := resource,
    resourceType := resourceType, expiry := expiry, permissions := permissions }

/-- Rust `StorageCredentials::shared_access_signature`: account-scope SAS
generation succeeds only for the `Key` variant; every other variant gets an
`ErrorKind::Other` error, with no cryptographic work done first. -/
def StorageCredentials.shared_access_signature (self : StorageCredentials)
    (resource : AccountSasResource) (resourceType : AccountSasResourceType)
    (expiry : DateTime) (permissions : AccountSasPermissions) :
    Except Error AccountSharedAccessSignature :=
  match self with
  | .Key account key =>
    .ok (AccountSharedAccessSignature.new account key resource resourceType
      expiry permissions)
  | _ =>
    .error (Error.message .other
      "failed shared access signature generation. SAS can be generated only from key and account clients")

/-- Rust `request_options::Timeout`: a duration, modelled in seconds. -/
def Timeout := Nat
deriving instance DecidableEq, Repr for Timeout

/-- Rust `TimeoutPolicy`: an optional default per-request timeout. -/
structure TimeoutPolicy where
  defaultTimeout : Option Timeout := none
deriving DecidableEq, Repr

/-- Rust `TimeoutPolicy::new`. -/
def TimeoutPolicy.new (defaultTimeout : Option Timeout) : TimeoutPolicy :=
  { defaultTimeout := defaultTimeout }

/-- Rust `azure_core::ClientOptions`. Modelled from the spec: the externally
supplied transport-level options (retry, transport, per-call/per-retry
extras) that this core threads through without inspecting; abstracted as
labelled option slots. -/
structure ClientOptions where
  retry : Option String := none
  transport : Option String := none
deriving DecidableEq, Repr

/-- Rust `StorageOptions`: client options plus the timeout policy. -/
structure StorageOptions where
  options : ClientOptions := {}
  timeout_policy : TimeoutPolicy := {}
deriving DecidableEq, Repr

/-- Rust `AuthorizationPolicy`: the per-retry pipeline stage that injects the
credential-derived authorization proof. Modelled from the spec: declared in
`authorization_policy.rs` outside the excerpt; it is constructed with a
captured credential. -/
structure AuthorizationPolicy where
  credentials : StorageCredentials
deriving DecidableEq, Repr

/-- Rust `AuthorizationPolicy::new(credentials)`. -/
def AuthorizationPolicy.new (credentials : StorageCredentials) :
    AuthorizationPolicy :=
  { credentials := credentials }

/-- A pipeline stage (`Arc<dyn Policy>`): the excerpt constructs exactly a
timeout stage and an authorization stage. -/
inductive Policy where
  | timeoutPolicy (p : TimeoutPolicy)
  | authorizationPolicy (p : AuthorizationPolicy)
deriving DecidableEq, Repr

/-- Rust `azure_core::Pipeline`. Modelled from the spec: the pipeline owns the
ordered, immutable stage groups; `Pipeline::new(name, version, options,
per_call_policies, per_retry_policies)` stores the two given groups
without reordering them ("this core always threads around the fixed group
without reordering it"). -/
structure Pipeline where
  crateName : Option String
  crateVersion : Option String
  options : ClientOptions
  perCallPolicies : List Policy
  perRetryPolicies : List Policy
deriving DecidableEq, Repr

/-- Rust `Pipeline::new`. Modelled from the spec (see `Pipeline`). -/
def Pipeline.new (name version : Option String) (options : ClientOptions)
    (perCall perRetry : List Policy) : Pipeline :=
  { crateName := name, crateVersion := version, options := options,
    perCallPolicies := perCall, perRetryPolicies := perRetry }

/-- Rust `new_pipeline_from_options`: builds the authorization policy from the
credentials and passes `[timeout policy, authorization policy]` as the
per-retry stage group (the source's comment: the `AuthorizationPolicy` must
be the last retry policy), with an empty extra per-call group. The
compile-time crate name/version env lookups are modelled as absent. -/
def new_pipeline_from_options (options : StorageOptions)
    (credentials : StorageCredentials) : Pipeline :=
  let auth_policy : Policy :=
    .authorizationPolicy (AuthorizationPolicy.new credentials)
  let per_retry_policies : List Policy :=
    [.timeoutPolicy options.timeout_policy, auth_policy]
  Pipeline.new none none options.options [] per_retry_policies

/-- Header name of the `Content-Length` header (`azure_core::headers::
CONTENT_LENGTH`). Modelled from the spec: the constant lives in
`azure_core`, outside the excerpt. -/
def CONTENT_LENGTH : String := "content-length"

/-- Header name of the protocol date header (`azure_core::headers::MS_DATE`).
Modelled from the spec: the constant lives outside the excerpt. -/
def MS_DATE : String := "x-ms-date"

/-- Header name of the API-version header (`azure_core::headers::VERSION`).
Modelled from the spec: the constant lives outside the excerpt. -/
def VERSION : String := "x-ms-version"

/-- Rust `azure_core::headers::Headers`: a map from header name to value,
modelled as an association list where insertion replaces the keyed entry. -/
def Headers := List (String × String)
deriving instance DecidableEq, Repr for Headers

/-- Map-style insertion: remove any entry with the key, then prepend the
new binding (only `Headers.lookup` is observable downstream). -/
def Headers.insert (hs : Headers) (k v : String) : Headers :=
  (k, v) :: List.filter (fun p => !(p.1 = k : Bool)) hs

/-- Map-style lookup of a header value by name. -/
def Headers.lookup (hs : Headers) (k : String) : Option String :=
  (List.find? (fun p => (p.1 = k : Bool)) hs).map Prod.snd

/-- The HTTP methods of `azure_core::Method` the excerpt uses. -/
inductive Method where
  | get | head | post | put | delete
deriving DecidableEq, Repr

/-- Rust `azure_core::Body`, modelled as its byte content. -/
def Body := List Nat
deriving instance DecidableEq, Repr for Body

/-- Rust `Body::len()`: the byte length of a body. -/
def Body.len (b : Body) : Nat := List.length b

/-- Rust `azure_core::EMPTY_BODY`: the explicit empty-body value. -/
def EMPTY_BODY : Body := []

/-- Rust `azure_core::Request`. Modelled from the spec: a mutable request value
with URL, method, headers and an optional body slot; `Request::new` leaves
the body unset until `set_body` fills it. -/
structure Request where
  url : Url
  method : Method
  headers : Headers
  body : Option Body
deriving DecidableEq, Repr

/-- Rust `Request::new(url, method)`: fresh request, no headers, body unset. -/
def Request.new (url : Url) (method : Method) : Request :=
  { url := url, method := method, headers := [], body := none }

/-- Rust `Request::insert_header`. -/
def Request.insert_header (r : Request) (k v : String) : Request :=
  { r with headers := r.headers.insert k v }

/-- Rust `Request::set_body`. -/
def Request.set_body (r : Request) (b : Body) : Request :=
  { r with body := some b }

/-- Rust `finalize_request(url, method, headers, request_body)`. The source reads
`OffsetDateTime::now_utc()`; the current time is passed here as the explicit
argument `dt`. Caller headers are inserted first, then the `Content-Length`,
date and API-version stamps, then the body (the explicit empty body when
none was supplied). -/
def finalize_request (dt : DateTime) (url : Url) (method : Method)
    (headers : Headers) (request_body : Option Body) : Except Error Request :=
  let time := toRfc1123 dt
  let request := Request.new url method
  let request := headers.foldl (fun r p => r.insert_header p.1 p.2) request
  let request :=
    match request_body with
    | some b => request.insert_header CONTENT_LENGTH (toString b.len)
    | none => request.insert_header CONTENT_LENGTH "0"
  let request := request.insert_header MS_DATE time
  let request := request.insert_header VERSION AZURE_VERSION
  let request :=
    match request_body with
    | some b => request.set_body b
    | none => request.set_body EMPTY_BODY
  .ok request

/-- Rust `url_with_segments(url, new_segments)`: appends path segments via the
URL's segment list; fails with an `ErrorKind::DataConversion` error when the
URL cannot be a base (`path_segments_mut` refuses non-hierarchical URLs). -/
def url_with_segments (url : Url) (new_segments : List String) :
    Except Error Url :=
  let original_url := url
  if url.cannotBeABase then
    .error (Error.message .dataConversion
      ("failed to parse url path segments from \x27" ++
        original_url.toDisplayString ++ "\x27"))
  else
    .ok { url with path := url.path ++ new_segments }

/-- Rust `CloudLocation`: the cloud with which you want to interact. -/
inductive CloudLocation where
  | Public (account : String) (storage_credentials : StorageCredentials)
  | China (account : String) (storage_credentials : StorageCredentials)
  | Emulator (address : String) (port : Nat)
  | Custom (uri : Url) (storage_credentials : StorageCredentials)
deriving DecidableEq, Repr

/-- Lift a `Url::parse` result into the source's
`with_context(ErrorKind::DataConversion, ...)` shape. -/
def parseWithContext (s : String) : Except Error Url :=
  match Url.parse s with
  | some u => .ok u
  | none => .error (Error.message .dataConversion ("failed to parse url: " ++ s))

/-- Rust `CloudLocation::url(storage_type)`: the base URL for a given cloud
location. -/
def CloudLocation.url (self : CloudLocation) (storage_type : String) :
    Except Error Url :=
  match self with
  | .Public account _ =>
    parseWithContext ("https://" ++ account ++ "." ++ storage_type ++ ".core.windows.net")
  | .China account _ =>
    parseWithContext ("https://" ++ account ++ "." ++ storage_type ++ ".core.chinacloudapi.cn")
  | .Custom uri _ => .ok uri
  | .Emulator address port =>
    parseWithContext ("https://" ++ address ++ ":" ++ toString port)

/-- Rust `CloudLocation::storage_credentials`. -/
def CloudLocation.storage_credentials (self : CloudLocation) :
    StorageCredentials :=
  match self with
  | .Public _ storage_credentials => storage_credentials
  | .China _ storage_credentials => storage_credentials
  | .Emulator _ _ => .Key EMULATOR_ACCOUNT EMULATOR_ACCOUNT_KEY
  | .Custom _ storage_credentials => storage_credentials

/-- Rust `CloudLocation::storage_account`: the `Custom` arm is `todo!()`, an
unimplemented placeholder that panics; the panic is modelled as `none`. -/
def CloudLocation.storage_account (self : CloudLocation) : Option String :=
  match self with
  | .Public account _ => some account
  | .China account _ => some account
  | .Emulator _ _ => some EMULATOR_ACCOUNT
  | .Custom _ _ => none

/-- Rust `BlobSasPermissions`: the blob-level permission flags. Modelled from the
spec: declared in the SAS module outside the excerpt; the container client
passes the set through opaquely. -/
structure BlobSasPermissions where
  read : Bool := false
  add : Bool := false
  create : Bool := false
  write : Bool := false
  delete : Bool := false
  list : Bool := false
deriving DecidableEq, Repr

/-- Rust `BlobSignedResource`: the explicit signed-resource discriminator
(container vs. object). Modelled from the spec: declared outside the
excerpt. -/
inductive BlobSignedResource where
  | blob | blobVersion | blobSnapshot | container | directory
deriving DecidableEq, Repr

/-- Rust `BlobSharedAccessSignature`. Modelled from the spec: the resource-scope
SAS token holds the signing key, the canonicalized resource path, the
permission set, the expiry and the signed-resource discriminator; its `new`
constructor stores exactly the given inputs with optional fields unset. -/
structure BlobSharedAccessSignature where
  key : String
  canonicalizedResource : String
  permissions : BlobSasPermissions
  expiry : DateTime
  signedResource : BlobSignedResource
  signedStart : Option DateTime := none
deriving DecidableEq, Repr

/-- Rust `BlobSharedAccessSignature::new(key, canonicalized_resource,
permissions, expiry, resource)`. Modelled from the spec (constructor outside
the excerpt): stores its inputs, optional fields unset. -/
def BlobSharedAccessSignature.new (key canonicalizedResource : String)
    (permissions : BlobSasPermissions) (expiry : DateTime)
    (resource : BlobSignedResource) : BlobSharedAccessSignature :=
  { key := key, canonicalizedResource := canonicalizedResource,
    permissions := permissions, expiry := expiry, signedResource := resource }

/-- Rust `ContainerClient`: account name, credentials, container name, resolved
URL, pipeline. -/
structure ContainerClient where
  storage_account : String
  storage_credentials : StorageCredentials
  container_name : String
  url : Url
  pipeline : Pipeline
deriving DecidableEq, Repr

/-- Rust `ContainerClient::shared_access_signature(permissions, expiry)`: builds
the canonicalized resource `/blob/{account}/{container}` and signs it with
the shared key as a `Container`-scoped signature; any non-`Key` credential
gets an `ErrorKind::Credential` error. -/
def ContainerClient.shared_access_signature (self : ContainerClient)
    (permissions : BlobSasPermissions) (expiry : DateTime) :
    Except Error BlobSharedAccessSignature :=
  let canonicalized_resource :=
    "/blob/" ++ self.storage_account ++ "/" ++ self.container_name
  match self.storage_credentials with
  | .Key _ key =>
    .ok (BlobSharedAccessSignature.new key canonicalized_resource permissions
      expiry .container)
  | _ =>
    .error (Error.message .credential
      "Shared access signature generation - SAS can be generated only from key and account clients")

/-- Rust `ContainerClientBuilder`. -/
structure ContainerClientBuilder where
  cloud_location : CloudLocation
  container : String
  storage_options : StorageOptions
deriving DecidableEq, Repr

/-- Rust `ContainerClientBuilder::build`: resolves the credentials, builds the
pipeline, resolves and joins the URL (`unwrap`ped — a failure panics), then
reads `storage_account()` (whose `Custom` arm is the `todo!()` panic) while
constructing the client. Every panic is modelled as `none`. -/
def ContainerClientBuilder.build (self : ContainerClientBuilder) :
    Option ContainerClient :=
  let storage_credentials := self.cloud_location.storage_credentials
  let pipeline :=
    new_pipeline_from_options self.storage_options storage_credentials
  match self.cloud_location.url "blob" with
  | .error _ => none
  | .ok base =>
    match base.join self.container with
    | none => none
    | some url =>
      match self.cloud_location.storage_account with
      | none => none
      | some account =>
        some { storage_account := account,
               storage_credentials := storage_credentials,
               container_name := self.container, url := url,
               pipeline := pipeline }

/-- Rust `BlobServiceClient`. -/
structure BlobServiceClient where
  storage_account : String
  storage_credentials : StorageCredentials
  url : Url
  pipeline : Pipeline
deriving DecidableEq, Repr

/-- Rust `BlobServiceClientBuilder`. -/
structure BlobServiceClientBuilder where
  cloud_location : CloudLocation
  storage_options : StorageOptions
deriving DecidableEq, Repr

/-- Rust `BlobServiceClientBuilder::build`: resolves credentials and pipeline,
`unwrap`s the resolved URL, then reads `storage_account()` (the `todo!()`
panic for `Custom`) while constructing the client; panics modelled as
`none`. -/
def BlobServiceClientBuilder.build (self : BlobServiceClientBuilder) :
    Option BlobServiceClient :=
  let storage_credentials := self.cloud_location.storage_credentials
  let pipeline :=
    new_pipeline_from_options self.storage_options storage_credentials
  match self.cloud_location.url "blob" with
  | .error _ => none
  | .ok url =>
    match self.cloud_location.storage_account with
    | none => none
    | some account =>
      some { storage_account := account,
             storage_credentials := storage_credentials,
             url := url, pipeline := pipeline }

/-- Finding under a filter that keeps every match is finding in the
original list. -/
theorem find?_filter_of_imp {α : Type} (p q : α → Bool) (l : List α)
    (h : ∀ a, p a = true → q a = true) :
    (l.filter q).find? p = l.find? p := by
  induction l with
  | nil => rfl
  | cons a l ih =>
    by_cases hq : q a = true
    · by_cases hp : p a = true
      · simp [List.filter_cons, hq, List.find?_cons, hp]
      · simp only [Bool.not_eq_true] at hp
        simp [List.filter_cons, hq, List.find?_cons, hp, ih]
    · have hp : p a = false := by
        cases hpa : p a
        · rfl
        · exact absurd (h a hpa) hq
      simp only [Bool.not_eq_true] at hq
      simp [List.filter_cons, hq, List.find?_cons, hp, ih]

/-- Looking up the key just inserted yields the inserted value. -/
theorem Headers.lookup_insert_self (hs : Headers) (k v : String) :
    (hs.insert k v).lookup k = some v := by
  simp [Headers.insert, Headers.lookup, List.find?_cons]

/-- Looking up a different key is unaffected by an insertion. -/
theorem Headers.lookup_insert_ne (hs : Headers) (k v k₂ : String)
    (hne : k₂ ≠ k) :
    (hs.insert k v).lookup k₂ = hs.lookup k₂ := by
  have hd : decide (k = k₂) = false := by
    simp only [decide_eq_false_iff_not]
    exact fun h => hne h.symm
  simp only [Headers.insert, Headers.lookup, List.find?_cons, hd]
  congr 1
  apply find?_filter_of_imp
  intro a ha
  have h1 : a.1 = k₂ := of_decide_eq_true ha
  simp [h1, hne]

/-- Folding header insertions over a request only transforms its header
map, by the corresponding fold over the map itself. -/
theorem headers_foldl_insert (hs : Headers) (r : Request) :
    (hs.foldl (fun r p => r.insert_header p.1 p.2) r).headers =
      hs.foldl (fun acc p => acc.insert p.1 p.2) r.headers := by
  induction hs generalizing r with
  | nil => rfl
  | cons p hs ih =>
    simp only [List.foldl_cons]
    rw [ih]
    rfl

/-- C2: every pipeline produced by `new_pipeline_from_options` carries an
empty extra per-call group and exactly the fixed stage group
`[timeout policy, authorization policy]` in that order (the source passes
this group as `per_retry_policies`, with the comment that the authorization
policy must be the last retry policy), so the authorization policy is the
last stage of that group and no core-supplied stage follows it. -/
theorem new_pipeline_fixed_stage_group (options : StorageOptions)
    (credentials : StorageCredentials) :
    (new_pipeline_from_options options credentials).perCallPolicies = [] ∧
    (new_pipeline_from_options options credentials).perRetryPolicies =
      [Policy.timeoutPolicy options.timeout_policy,
       Policy.authorizationPolicy (AuthorizationPolicy.new credentials)] ∧
    (new_pipeline_from_options options credentials).perRetryPolicies.getLast? =
      some (Policy.authorizationPolicy (AuthorizationPolicy.new credentials)) :=
  ⟨rfl, rfl, rfl⟩

/-- C3: the `Emulator` cloud location always resolves to a `Key` credential
with the well-known emulator account string and the documented well-known
emulator key, and `storage_account` returns the same account string, for
every address and port — the result does not depend on the address, the
port, or any other configuration. -/
theorem emulator_resolves_to_wellknown_account (address : String) (port : Nat) :
    (CloudLocation.Emulator address port).storage_credentials =
      StorageCredentials.Key EMULATOR_ACCOUNT EMULATOR_ACCOUNT_KEY ∧
    (CloudLocation.Emulator address port).storage_account =
      some EMULATOR_ACCOUNT ∧
    EMULATOR_ACCOUNT = "devstoreaccount1" ∧
    EMULATOR_ACCOUNT_KEY =
      "Eby8vdM02xNOcqFlqUwJPLlmEtlCDXJ1OUzFT50uSRZ6IFsuFq2UVErCz4I6tq/K1SZFPTOtr/KBHBeksoGMGw==" ∧
    ∀ address₂ port₂,
      (CloudLocation.Emulator address port).storage_credentials =
        (CloudLocation.Emulator address₂ port₂).storage_credentials :=
  ⟨rfl, rfl, rfl, rfl, fun _ _ => rfl⟩

/-- C4: `CloudLocation::url` returns, for `Public`, the parse of
`https://{account}.{service_kind}.core.windows.net`; for `China`, the same
shape with the China domain suffix; for `Emulator`, the parse of
`https://{address}:{port}` independent of the service kind (service kind and
account go into the later path, not the host — concretely, the emulator URL
for address 127.0.0.1 and port 10000 has exactly that host and port and an
empty path); and for `Custom`, the stored base URI unchanged. -/
theorem cloud_location_url_rules :
    (∀ account creds st, CloudLocation.url (.Public account creds) st =
       parseWithContext
         ("https://" ++ account ++ "." ++ st ++ ".core.windows.net")) ∧
    (∀ account creds st, CloudLocation.url (.China account creds) st =
       parseWithContext
         ("https://" ++ account ++ "." ++ st ++ ".core.chinacloudapi.cn")) ∧
    (∀ address port st, CloudLocation.url (.Emulator address port) st =
       parseWithContext ("https://" ++ address ++ ":" ++ toString port)) ∧
    (∀ address port st st₂,
       CloudLocation.url (.Emulator address port) st =
         CloudLocation.url (.Emulator address port) st₂) ∧
    CloudLocation.url (.Emulator "127.0.0.1" 10000) "blob" =
      .ok { scheme := "https", host := "127.0.0.1", port := some 10000,
            path := [], query := none, cannotBeABase := false } ∧
    (∀ uri creds st, CloudLocation.url (.Custom uri creds) st = .ok uri) :=
  ⟨fun _ _ _ => rfl, fun _ _ _ => rfl, fun _ _ _ => rfl, fun _ _ _ _ => rfl,
   by rfl, fun _ _ _ => rfl⟩

/-- C10: the `Debug` formatting of `StorageCredentials` prints only the
variant name — it is a fixed string per variant, so any two credentials of
the same variant format identically and no account name, key, bearer token
or SAS query pair can flow into the output. -/
theorem storage_credentials_debug_variant_only :
    (∀ a k, (StorageCredentials.Key a k).debugFmt =
       "StorageCredentials \x7b credential: \"Key\" \x7d") ∧
    (∀ ps, (StorageCredentials.SASToken ps).debugFmt =
       "StorageCredentials \x7b credential: \"SASToken\" \x7d") ∧
    (∀ t, (StorageCredentials.BearerToken t).debugFmt =
       "StorageCredentials \x7b credential: \"BearerToken\" \x7d") ∧
    (∀ i, (StorageCredentials.TokenCredential i).debugFmt =
       "StorageCredentials \x7b credential: \"TokenCredential\" \x7d") ∧
    (∀ a k a₂ k₂, (StorageCredentials.Key a k).debugFmt =
       (StorageCredentials.Key a₂ k₂).debugFmt) ∧
    (∀ ps ps₂, (StorageCredentials.SASToken ps).debugFmt =
       (StorageCredentials.SASToken ps₂).debugFmt) ∧
    (∀ t t₂, (StorageCredentials.BearerToken t).debugFmt =
       (StorageCredentials.BearerToken t₂).debugFmt) ∧
    (∀ i i₂, (StorageCredentials.TokenCredential i).debugFmt =
       (StorageCredentials.TokenCredential i₂).debugFmt) :=
  ⟨fun _ _ => rfl, fun _ => rfl, fun _ => rfl, fun _ => rfl,
   fun _ _ _ _ => rfl, fun _ _ => rfl, fun _ _ => rfl, fun _ _ => rfl⟩

/-- Folding header insertions over a request rewrites only its header map. -/
theorem foldl_insert_header_eq (hs : Headers) (r : Request) :
    hs.foldl (fun r p => r.insert_header p.1 p.2) r =
      { r with headers :=
          hs.foldl (fun (acc : Headers) p => acc.insert p.1 p.2) r.headers } := by
  induction hs generalizing r with
  | nil => rfl
  | cons p hs ih =>
    simp only [List.foldl_cons]
    rw [ih]
    rfl

/-- Canonical form of `finalize_request`: it always succeeds, with the
caller headers folded in first, the three stamps inserted on top, and the
body slot filled (explicit empty body when none was supplied). -/
theorem finalize_request_eq (dt : DateTime) (url : Url) (method : Method)
    (headers : Headers) (rb : Option Body) :
    finalize_request dt url method headers rb =
      .ok { url := url, method := method,
            headers :=
              (((headers.foldl (fun (acc : Headers) p => acc.insert p.1 p.2)
                  ([] : Headers)).insert CONTENT_LENGTH
                    (match rb with
                     | some b => toString b.len
                     | none => "0")).insert MS_DATE (toRfc1123 dt)).insert
                VERSION AZURE_VERSION,
            body := some
              (match rb with
               | some b => b
               | none => EMPTY_BODY) } := by
  have h := foldl_insert_header_eq headers (Request.new url method)
  cases rb <;>
    (simp only [finalize_request]
     rw [h]
     rfl)

/-- Looking up `CONTENT_LENGTH` through the date and version stamps. -/
theorem lookup_content_length_stamp (hs : Headers) (v : String)
    (dt : DateTime) :
    (((hs.insert CONTENT_LENGTH v).insert MS_DATE (toRfc1123 dt)).insert
        VERSION AZURE_VERSION).lookup CONTENT_LENGTH = some v := by
  rw [Headers.lookup_insert_ne _ _ _ _ (by decide),
    Headers.lookup_insert_ne _ _ _ _ (by decide),
    Headers.lookup_insert_self]

/-- C6: `finalize_request` always sets `Content-Length` — `"0"` with no
body, the decimal length otherwise (so an explicit zero-length body also
gives `"0"`, and a 42-byte body gives `"42"`) — and when no body is
supplied the request body is set to the explicit empty-body value, never
left unset. -/
theorem finalize_request_content_length_and_body :
    (∀ dt url method headers, ∃ r,
       finalize_request dt url method headers none = .ok r ∧
       r.headers.lookup CONTENT_LENGTH = some "0" ∧
       r.body = some EMPTY_BODY) ∧
    (∀ dt url method headers b, ∃ r,
       finalize_request dt url method headers (some b) = .ok r ∧
       r.headers.lookup CONTENT_LENGTH = some (toString b.len) ∧
       r.body = some b) ∧
    (∀ dt url method headers, ∃ r,
       finalize_request dt url method headers (some EMPTY_BODY) = .ok r ∧
       r.headers.lookup CONTENT_LENGTH = some "0") ∧
    (∀ dt url method headers, ∃ r,
       finalize_request dt url method headers
           (some (List.replicate 42 0)) = .ok r ∧
       r.headers.lookup CONTENT_LENGTH = some "42") := by
  refine ⟨?_, ?_, ?_, ?_⟩ <;> intro dt url method headers
  · exact ⟨_, finalize_request_eq dt url method headers none,
      lookup_content_length_stamp _ _ _, rfl⟩
  · intro b
    exact ⟨_, finalize_request_eq dt url method headers (some b),
      lookup_content_length_stamp _ _ _, rfl⟩
  · exact ⟨_, finalize_request_eq dt url method headers (some EMPTY_BODY),
      lookup_content_length_stamp _ _ _⟩
  · exact ⟨_, finalize_request_eq dt url method headers
        (some (List.replicate 42 0)),
      lookup_content_length_stamp _ _ _⟩

/-- C7: `finalize_request` merges the caller headers first and then stamps
the protocol date header (the passed current UTC time rendered by
`toRfc1123`, the legacy RFC-1123 HTTP date format — see the concrete
rendering conjunct — not ISO-8601), the fixed API-version header, and
`Content-Length`; for those three names the stamped value is what the
resulting request holds, overriding any caller-supplied value, while every
other name keeps the merged caller value. -/
theorem finalize_request_stamps_override :
    (∀ dt url method headers rb name, ∃ r,
       finalize_request dt url method headers rb = .ok r ∧
       r.headers.lookup name =
         if name = VERSION then some AZURE_VERSION
         else if name = MS_DATE then some (toRfc1123 dt)
         else if name = CONTENT_LENGTH then
           some (match rb with
                 | some b => toString b.len
                 | none => "0")
         else (headers.foldl (fun (acc : Headers) p =>
                 acc.insert p.1 p.2) []).lookup name) ∧
    toRfc1123 ⟨1994, 11, 6, 8, 49, 37⟩ = "Sun, 06 Nov 1994 08:49:37 GMT" := by
  refine ⟨?_, by rfl⟩
  intro dt url method headers rb name
  refine ⟨_, finalize_request_eq dt url method headers rb, ?_⟩
  by_cases h₁ : name = VERSION
  · rw [if_pos h₁, h₁, Headers.lookup_insert_self]
  · rw [if_neg h₁, Headers.lookup_insert_ne _ _ _ _ h₁]
    by_cases h₂ : name = MS_DATE
    · rw [if_pos h₂, h₂, Headers.lookup_insert_self]
    · rw [if_neg h₂, Headers.lookup_insert_ne _ _ _ _ h₂]
      by_cases h₃ : name = CONTENT_LENGTH
      · rw [if_pos h₃, h₃, Headers.lookup_insert_self]
      · rw [if_neg h₃, Headers.lookup_insert_ne _ _ _ _ h₃]

/-- C1 (as stated) is false at a concrete input: account-scope SAS
generation on a `BearerToken` credential fails with `ErrorKind::Other`,
not the `Credential` kind the claim requires. -/
theorem account_sas_error_kind_is_other_not_credential :
    ((StorageCredentials.BearerToken "token").shared_access_signature
        .blob .object ⟨2024, 1, 1, 0, 0, 0⟩ {}).errorKind =
      some ErrorKind.other ∧
    ErrorKind.other ≠ ErrorKind.credential :=
  ⟨rfl, by decide⟩

/-- C1 (amended): for every non-`Key` credential both SAS generators fail
immediately (no signature is constructed), but the resource-scope failure
carries `ErrorKind::Credential` while the account-scope failure carries
`ErrorKind::Other`; with a `Key` credential both return `Ok` with the
constructed signature. -/
theorem sas_generation_requires_key_credential :
    (∀ account key res rt expiry perms,
       (StorageCredentials.Key account key).shared_access_signature
           res rt expiry perms =
         .ok (AccountSharedAccessSignature.new account key res rt expiry
           perms)) ∧
    (∀ t res rt expiry perms,
       (StorageCredentials.BearerToken t).shared_access_signature
           res rt expiry perms =
         .error (Error.message .other
           "failed shared access signature generation. SAS can be generated only from key and account clients")) ∧
    (∀ ps res rt expiry perms,
       (StorageCredentials.SASToken ps).shared_access_signature
           res rt expiry perms =
         .error (Error.message .other
           "failed shared access signature generation. SAS can be generated only from key and account clients")) ∧
    (∀ i res rt expiry perms,
       (StorageCredentials.TokenCredential i).shared_access_signature
           res rt expiry perms =
         .error (Error.message .other
           "failed shared access signature generation. SAS can be generated only from key and account clients")) ∧
    (∀ acct a₀ key container u pl perms expiry,
       ContainerClient.shared_access_signature
           { storage_account := acct, storage_credentials := .Key a₀ key,
             container_name := container, url := u, pipeline := pl }
           perms expiry =
         .ok (BlobSharedAccessSignature.new key
           ("/blob/" ++ acct ++ "/" ++ container) perms expiry .container)) ∧
    (∀ acct t container u pl perms expiry,
       ContainerClient.shared_access_signature
           { storage_account := acct, storage_credentials := .BearerToken t,
             container_name := container, url := u, pipeline := pl }
           perms expiry =
         .error (Error.message .credential
           "Shared access signature generation - SAS can be generated only from key and account clients")) ∧
    (∀ acct ps container u pl perms expiry,
       ContainerClient.shared_access_signature
           { storage_account := acct, storage_credentials := .SASToken ps,
             container_name := container, url := u, pipeline := pl }
           perms expiry =
         .error (Error.message .credential
           "Shared access signature generation - SAS can be generated only from key and account clients")) ∧
    (∀ acct i container u pl perms expiry,
       ContainerClient.shared_access_signature
           { storage_account := acct,
             storage_credentials := .TokenCredential i,
             container_name := container, url := u, pipeline := pl }
           perms expiry =
         .error (Error.message .credential
           "Shared access signature generation - SAS can be generated only from key and account clients")) :=
  ⟨fun _ _ _ _ _ _ => rfl, fun _ _ _ _ _ => rfl, fun _ _ _ _ _ => rfl,
   fun _ _ _ _ _ => rfl, fun _ _ _ _ _ _ _ _ => rfl, fun _ _ _ _ _ _ _ => rfl,
   fun _ _ _ _ _ _ _ => rfl, fun _ _ _ _ _ _ _ => rfl⟩

/-- Error-kind characterization of `parseWithContext`: the data-conversion
kind exactly when the string fails to parse. -/
theorem parseWithContext_errorKind (s : String) :
    (parseWithContext s).errorKind =
      if Url.parse s = none then some ErrorKind.dataConversion else none := by
  rcases h : Url.parse s with - | u <;>
    simp [parseWithContext, h, Except.errorKind, Error.message]

/-- C5: URL-construction failures surface to the caller with the error kind
the source uses for address problems (`ErrorKind::DataConversion`, the
spec's `AddressError`): `CloudLocation::url` fails with exactly that kind
precisely when the composed string does not parse (shown reachable at an
account name with an illegal character), `Custom` never fails, and
`url_with_segments` fails with that kind exactly when the base URL cannot
be treated as hierarchical, otherwise appending the segments — no failure
is swallowed. -/
theorem url_failures_surface_address_error :
    (∀ account creds st,
       (CloudLocation.url (.Public account creds) st).errorKind =
         if Url.parse ("https://" ++ account ++ "." ++ st ++
             ".core.windows.net") = none
         then some ErrorKind.dataConversion else none) ∧
    (∀ account creds st,
       (CloudLocation.url (.China account creds) st).errorKind =
         if Url.parse ("https://" ++ account ++ "." ++ st ++
             ".core.chinacloudapi.cn") = none
         then some ErrorKind.dataConversion else none) ∧
    (∀ address port st,
       (CloudLocation.url (.Emulator address port) st).errorKind =
         if Url.parse ("https://" ++ address ++ ":" ++ toString port) = none
         then some ErrorKind.dataConversion else none) ∧
    (∀ uri creds st,
       (CloudLocation.url (.Custom uri creds) st).errorKind = none) ∧
    (CloudLocation.url (.Public "bad account" (.BearerToken "t"))
        "blob").errorKind = some ErrorKind.dataConversion ∧
    (∀ u segs, url_with_segments u segs =
       if u.cannotBeABase then
         .error (Error.message .dataConversion
           ("failed to parse url path segments from \x27" ++
             u.toDisplayString ++ "\x27"))
       else .ok { u with path := u.path ++ segs }) :=
  ⟨fun _ _ _ => parseWithContext_errorKind _,
   fun _ _ _ => parseWithContext_errorKind _,
   fun _ _ _ => parseWithContext_errorKind _,
   fun _ _ _ => rfl, by rfl, fun _ _ => rfl⟩

/-- C8: for every `ContainerClient` whose credential is the `Key` variant,
`shared_access_signature` builds the canonicalized resource exactly
`/blob/{account}/{container}` from the client's stored account and
container names (the key comes from the credential, the account from the
client) and constructs the signature with the `Container` signed-resource
discriminator and the caller-supplied permissions and expiry. -/
theorem container_sas_canonicalized_resource
    (acct a₀ key container : String) (u : Url) (pl : Pipeline)
    (perms : BlobSasPermissions) (expiry : DateTime) :
    ContainerClient.shared_access_signature
        { storage_account := acct, storage_credentials := .Key a₀ key,
          container_name := container, url := u, pipeline := pl }
        perms expiry =
      .ok (BlobSharedAccessSignature.new key
        ("/blob/" ++ acct ++ "/" ++ container) perms expiry
        BlobSignedResource.container) :=
  rfl

/-- C9: for every `Custom` cloud location, `storage_account` hits the
`todo!()` placeholder (modelled as `none` — it never returns an account
name), and consequently both `ContainerClientBuilder::build` and
`BlobServiceClientBuilder::build` panic (`none`) rather than return a
typed error, for any credential, container name and options. -/
theorem custom_location_account_unimplemented (uri : Url)
    (creds : StorageCredentials) (container : String)
    (opts : StorageOptions) :
    (CloudLocation.Custom uri creds).storage_account = none ∧
    ContainerClientBuilder.build
      { cloud_location := .Custom uri creds, container := container,
        storage_options := opts } = none ∧
    BlobServiceClientBuilder.build
      { cloud_location := .Custom uri creds, storage_options := opts } =
      none := by
  refine ⟨rfl, ?_, rfl⟩
  cases h : uri.cannotBeABase <;>
    simp [ContainerClientBuilder.build, CloudLocation.url, Url.join,
      CloudLocation.storage_account, h]
